import Mathlib

/-!
Shallow embedding of `app.py` from the `ai-doctor-whatsapp-bot` repository:
a Flask webhook handler (`whatsapp_reply`), a remote LLM diagnosis client
(`diagnose`), an SQLite-backed consultation store (`init_db`, `save_to_db`,
and the inline history query, modelled as `recent`).

External effects are modelled by oracles: the outcome of the single
outbound HTTP request is a `RemoteOutcome` value, and persistence-layer
failures (sqlite3.Error) are boolean flags in `Env`.  The handler returns,
besides the reply text, the resulting table contents, the number of
outbound remote calls performed, and the trace of `save_to_db` call
arguments, so that side-effect claims can be stated.
-/

namespace AiDoctor

/-- ASCII whitespace as stripped by Python's `str.strip()`. -/
def isWs (c : Char) : Bool :=
  c = ' ' || c = '\t' || c = '\n' || c = '\x0d' || c = '\x0b' || c = '\x0c'

/-- Python `str.strip()`: drop leading and trailing whitespace. -/
def strip (s : String) : String :=
  ⟨(((s.data.dropWhile isWs).reverse.dropWhile isWs).reverse)⟩

/-- Lower-case an ASCII letter, as Python `str.lower()` does on ASCII text. -/
def lowerChar (c : Char) : Char :=
  if 65 ≤ c.toNat ∧ c.toNat ≤ 90 then Char.ofNat (c.toNat + 32) else c

/-- Python `str.lower()` restricted to ASCII case mapping. -/
def lowerStr (s : String) : String :=
  ⟨s.data.map lowerChar⟩

/-- Does `hay` start with `needle`? -/
def startsWithL : List Char → List Char → Bool
  | _, [] => true
  | [], _ :: _ => false
  | c :: cs, d :: ds => c == d && startsWithL cs ds

/-- Python's substring test `needle in hay`. -/
def hasSub : List Char → List Char → Bool
  | [], needle => needle.isEmpty
  | hay@(_ :: t), needle => startsWithL hay needle || hasSub t needle

/-! ## Remote diagnosis client (`diagnose`, app.py lines 78-143) -/

/-- One element of a candidate's `content.parts` list; the `text` key may
be absent (its absence makes the extraction raise, caught by the generic
`except Exception` handler). -/
structure Part where
  text : Option String
deriving DecidableEq

/-- A candidate's `content` object: a (possibly empty) `parts` list. -/
structure Content where
  parts : List Part
deriving DecidableEq

/-- One element of the response's `candidates` list; the `content` key may
be absent or falsy. -/
structure Candidate where
  content : Option Content
deriving DecidableEq

/-- The parsed JSON body of a 2xx response from the text-generation
endpoint.  A falsy or absent `candidates` key and an empty list behave
identically under the code's truthiness checks, so both are the empty
list here. -/
structure GeminiResult where
  candidates : List Candidate
deriving DecidableEq

/-- Outcome of the single `requests.post` + `raise_for_status` + `.json()`
sequence, one constructor per `except` arm of `diagnose`. -/
inductive RemoteOutcome where
  /-- 2xx status and a JSON-parsable body. -/
  | success (result : GeminiResult)
  /-- `requests.exceptions.HTTPError` from `raise_for_status` (non-2xx). -/
  | httpError
  /-- `requests.exceptions.ConnectionError`. -/
  | connectionError
  /-- `requests.exceptions.Timeout`. -/
  | timeoutError
  /-- any other `requests.exceptions.RequestException`. -/
  | requestError
  /-- `json.JSONDecodeError` from `response.json()`. -/
  | jsonDecodeError
  /-- any other unexpected exception. -/
  | unexpectedError
deriving DecidableEq

/-- Issue the outbound HTTP call: the oracle decides the outcome, and the
call counter is incremented. -/
def post (oracle : RemoteOutcome) (calls : Nat) : RemoteOutcome × Nat :=
  (oracle, calls + 1)

/-- Leading disclaimer prepended to every successful LLM diagnosis. -/
def leadingDisclaimer : String :=
  "⚠️ Disclaimer: I am an AI and cannot provide medical advice. Consult a doctor for health concerns.\n\n"

/-- Trailing disclaimer appended to every successful LLM diagnosis. -/
def trailingDisclaimer : String :=
  "\n\nRemember to consult a healthcare professional for diagnosis and treatment."

/-- `final_response` built on the success path of `diagnose`. -/
def wrapDisclaimer (t : String) : String :=
  leadingDisclaimer ++ t ++ trailingDisclaimer

/-- Apology returned when the response structure check fails (the `else`
arm, app.py line 124). -/
def structureMsg : String :=
  "⚠️ AI diagnosis unavailable. Please try again or consult a doctor."

/-- Apology for `requests.exceptions.HTTPError`. -/
def httpMsg : String :=
  "⚠️ AI diagnosis currently unavailable due to a network issue. Please try again later."

/-- Apology for `requests.exceptions.ConnectionError`. -/
def connMsg : String :=
  "⚠️ AI diagnosis currently unavailable due to a connection issue. Please try again later."

/-- Apology for `requests.exceptions.Timeout`. -/
def timeoutMsg : String :=
  "⚠️ AI diagnosis currently unavailable due to a timeout. Please try again later."

/-- Apology for any other `requests.exceptions.RequestException`. -/
def reqMsg : String :=
  "⚠️ AI diagnosis currently unavailable due to an unexpected error. Please try again later."

/-- Apology for `json.JSONDecodeError`. -/
def jsonMsg : String :=
  "⚠️ AI diagnosis unavailable due to a response formatting issue. Please try again."

/-- Apology for any other unexpected exception. -/
def unexpectedMsg : String :=
  "⚠️ An unexpected AI error occurred. Please try again."

/-- `diagnose(symptoms)` (app.py lines 78-143).  The symptom text only
feeds the prompt, which does not influence the modelled outcome, so the
function is parametrised by the call's outcome oracle.  Returns the
`(label, text)` pair together with the number of outbound calls made. -/
def diagnose (oracle : RemoteOutcome) : (String × String) × Nat :=
  let (r, calls) := post oracle 0
  let pair :=
    match r with
    | .success result =>
      match result.candidates with
      | c :: _ =>
        match c.content with
        | some ct =>
          match ct.parts with
          | p :: _ =>
            match p.text with
            | some t => ("LLM Diagnosis", wrapDisclaimer t)
            | none => ("LLM Error", unexpectedMsg)
          | [] => ("LLM Error", structureMsg)
        | none => ("LLM Error", structureMsg)
      | [] => ("LLM Error", structureMsg)
    | .httpError => ("LLM Error", httpMsg)
    | .connectionError => ("LLM Error", connMsg)
    | .timeoutError => ("LLM Error", timeoutMsg)
    | .requestError => ("LLM Error", reqMsg)
    | .jsonDecodeError => ("LLM Error", jsonMsg)
    | .unexpectedError => ("LLM Error", unexpectedMsg)
  (pair, calls)

/-- A remote outcome on which `diagnose` cannot take its success path:
every exception arm, plus a 2xx body failing the structure check or
missing the first part's `text` key. -/
def isFailure : RemoteOutcome → Bool
  | .success result =>
    match result.candidates with
    | c :: _ =>
      match c.content with
      | some ct =>
        match ct.parts with
        | p :: _ => p.text.isNone
        | [] => true
      | none => true
    | [] => true
  | _ => true

/-! ## Consultation store (app.py lines 36-71, 146-159, 182-197) -/

/-- One row of the `consultations` table. -/
structure Consultation where
  id : Nat
  phone : String
  symptoms : String
  diagnosis : Option String
  response : String
  timestamp : Nat
  patient_name : String
deriving DecidableEq

/-- The argument tuple of one `save_to_db` invocation. -/
structure SaveCall where
  phone : String
  symptoms : String
  diagnosis : Option String
  response : String
  patient_name : String
deriving DecidableEq

/-- `init_db()` (app.py lines 36-68): deletes any existing database file
and creates a fresh, empty `consultations` table, whatever the file held
before. -/
def init_db (fs : Option (List Consultation)) : Option (List Consultation) :=
  some []

/-- `save_to_db` (app.py lines 146-159): inserts one row (id assigned
sequentially, timestamp set by the store) and returns whether the insert
succeeded; an sqlite3.Error (the `fail` oracle) is caught and reported as
`false` with the table unchanged. -/
def save_to_db (fail : Bool) (db : List Consultation) (now : Nat)
    (c : SaveCall) : Bool × List Consultation :=
  if fail then (false, db)
  else (true, db ++ [⟨db.length + 1, c.phone, c.symptoms, c.diagnosis,
                      c.response, now, c.patient_name⟩])

/-- "`a` is at least as recent as `b`": the ORDER BY timestamp DESC
ordering of the history query. -/
def tsGe (a b : Consultation) : Prop := b.timestamp ≤ a.timestamp

instance : DecidableRel tsGe := fun a b => Nat.decLe _ _

instance : IsTotal Consultation tsGe :=
  ⟨fun a b => Nat.le_total b.timestamp a.timestamp⟩

instance : IsTrans Consultation tsGe :=
  ⟨fun _ _ _ hab hbc => Nat.le_trans hbc hab⟩

/-- The history query (app.py lines 184-188):
`SELECT ... WHERE phone = ? ORDER BY timestamp DESC LIMIT 3`. -/
def recent (db : List Consultation) (phone : String) : List Consultation :=
  (List.insertionSort tsGe (db.filter fun c => c.phone == phone)).take 3

/-- Rendering of one history row (app.py line 191); a NULL diagnosis
prints as Python's `str(None)`. -/
def renderRow (c : Consultation) : String :=
  "[" ++ toString c.timestamp ++ "] " ++ c.patient_name ++ " - Symptoms: "
    ++ c.symptoms ++ " → Diagnosis: "
    ++ (match c.diagnosis with | none => "None" | some d => d)

/-- Rendering of a non-empty history (app.py lines 190-192). -/
def renderHistory (rows : List Consultation) : String :=
  "📜 Your History:\n" ++ String.intercalate "\n" (rows.map renderRow)

/-! ## Message handler (`whatsapp_reply`, app.py lines 161-212) -/

/-- Reply to an empty body. -/
def promptMsg : String :=
  "Please describe your symptoms (e.g., 'headache and fever')."

/-- Greeting reply. -/
def greetMsg : String :=
  "👋 Hi! Describe your symptoms (e.g. 'headache and fever')"

/-- Apology when the history query raises sqlite3.Error. -/
def histErrMsg : String :=
  "⚠️ Could not retrieve history due to a database error."

/-- Reply when the sender has no history rows. -/
def noHistMsg : String :=
  "No history found for this number."

/-- Apology sent when `save_to_db` reports failure. -/
def notSavedMsg : String :=
  "⚠️ System error - your symptoms were not saved. Please try again."

/-- The diagnosis-branch report combining the raw symptom text with the
classifier's text (app.py line 201). -/
def reportMsg (msg dr : String) : String :=
  "AI Doctor Report:\n\nSymptoms: " ++ msg ++ "\nDiagnosis: " ++ dr

/-- External-effect oracles for one request: the remote call's outcome,
whether the history query and the insert raise, and the store clock. -/
structure Env where
  remote : RemoteOutcome
  historyFail : Bool
  saveFail : Bool
  now : Nat

/-- The inbound form fields; absent fields default to the empty string. -/
structure Request where
  From : Option String
  Body : Option String

/-- The branching block of `whatsapp_reply` (app.py lines 176-201):
computes `(response_text, diagnosis_name, remote-call count)` from the
stripped message body. -/
def branchStep (env : Env) (db : List Consultation) (phone msg : String) :
    String × Option String × Nat :=
  if msg = "" then
    (promptMsg, none, 0)
  else if hasSub (lowerStr msg).data "hello".data then
    (greetMsg, none, 0)
  else if hasSub (lowerStr msg).data "history".data then
    (if env.historyFail then histErrMsg
     else
       let h := recent db phone
       if h.isEmpty then noHistMsg else renderHistory h,
     none, 0)
  else
    let d := diagnose env.remote
    (reportMsg msg d.1.2, some d.1.1, d.2)

/-- Everything observable about one handled request. -/
structure HandlerResult where
  /-- The message text set on the TwiML response. -/
  reply : String
  /-- The `consultations` table after the request. -/
  rows : List Consultation
  /-- Number of outbound remote-diagnosis calls performed. -/
  remoteCalls : Nat
  /-- The trace of `save_to_db` invocations (their argument tuples). -/
  saves : List SaveCall

/-- `whatsapp_reply()` (app.py lines 161-212). -/
def whatsapp_reply (env : Env) (db : List Consultation) (req : Request) :
    HandlerResult :=
  let phone := req.From.getD ""
  let incoming_msg := strip (req.Body.getD "")
  let br := branchStep env db phone incoming_msg
  let call : SaveCall := ⟨phone, incoming_msg, br.2.1, br.1, "Unknown"⟩
  let sv := save_to_db env.saveFail db env.now call
  { reply := if sv.1 then br.1 else notSavedMsg
    rows := sv.2
    remoteCalls := br.2.2
    saves := [call] }

end AiDoctor

namespace AiDoctor

/-! ## Helper lemmas -/

/-- A body consisting only of whitespace strips to the empty string. -/
theorem strip_of_all_ws (s : String) (h : ∀ c ∈ s.data, isWs c = true) :
    strip s = "" := by
  unfold strip
  rw [List.dropWhile_eq_nil_iff.mpr h]
  rfl

/-- The remote client performs exactly one outbound call, whatever the
outcome. -/
theorem diagnose_calls_eq_one (o : RemoteOutcome) : (diagnose o).2 = 1 := rfl

/-- The handler performs at most one remote call per inbound message. -/
theorem remoteCalls_le_one (env : Env) (db : List Consultation)
    (req : Request) : (whatsapp_reply env db req).remoteCalls ≤ 1 := by
  show (branchStep env db _ _).2.2 ≤ 1
  unfold branchStep
  split
  · exact Nat.zero_le 1
  · split
    · exact Nat.zero_le 1
    · split
      · exact Nat.zero_le 1
      · exact Nat.le_of_eq (diagnose_calls_eq_one env.remote)

end AiDoctor

namespace AiDoctor

/-- The fixed user-safe apology strings of the remote client's failure
arms. -/
def failureApologies : List String :=
  [structureMsg, httpMsg, connMsg, timeoutMsg, reqMsg, jsonMsg, unexpectedMsg]

/-- C1: every failure of the remote diagnosis call (non-2xx status,
connection error, timeout, any other request exception, JSON parse
failure, structurally bad body, or any other unexpected exception) makes
`diagnose` return the label "LLM Error" together with one of the fixed
user-safe apology strings — one `(label, message)` pair for the caller,
whatever the failure subtype — and exactly one outbound call is made, so
no retry happens; moreover the handler never makes more than one outbound
call per inbound message. -/
theorem diagnose_failure_uniform (o : RemoteOutcome)
    (h : isFailure o = true) :
    (diagnose o).1.1 = "LLM Error" ∧
    (diagnose o).1.2 ∈ failureApologies ∧
    (diagnose o).2 = 1 ∧
    (∀ (env : Env) (db : List Consultation) (req : Request),
      (whatsapp_reply env db req).remoteCalls ≤ 1) := by
  refine ⟨?_, ?_, rfl, fun env db req => remoteCalls_le_one env db req⟩ <;>
  · cases o with
    | success r =>
      obtain ⟨cands⟩ := r
      cases cands with
      | nil => simp [diagnose, post, failureApologies]
      | cons c rest =>
        obtain ⟨ct⟩ := c
        cases ct with
        | none => simp [diagnose, post, failureApologies]
        | some ct =>
          obtain ⟨ps⟩ := ct
          cases ps with
          | nil => simp [diagnose, post, failureApologies]
          | cons p ps =>
            obtain ⟨t⟩ := p
            cases t with
            | none => simp [diagnose, post, failureApologies]
            | some t => simp [isFailure] at h
    | httpError => simp [diagnose, post, failureApologies]
    | connectionError => simp [diagnose, post, failureApologies]
    | timeoutError => simp [diagnose, post, failureApologies]
    | requestError => simp [diagnose, post, failureApologies]
    | jsonDecodeError => simp [diagnose, post, failureApologies]
    | unexpectedError => simp [diagnose, post, failureApologies]

/-- C1 witness: a simulated remote-call timeout yields the "LLM Error"
label, the fixed timeout apology, and a call count of one. -/
theorem diagnose_failure_uniform_witness :
    isFailure RemoteOutcome.timeoutError = true ∧
    ((diagnose RemoteOutcome.timeoutError).1.1 = "LLM Error" ∧
     (diagnose RemoteOutcome.timeoutError).1.2 ∈ failureApologies ∧
     (diagnose RemoteOutcome.timeoutError).2 = 1 ∧
     (∀ (env : Env) (db : List Consultation) (req : Request),
       (whatsapp_reply env db req).remoteCalls ≤ 1)) :=
  ⟨by decide, diagnose_failure_uniform RemoteOutcome.timeoutError (by decide)⟩

end AiDoctor

namespace AiDoctor

/-- C2: the handler branches on the (stripped) message body
case-insensitively and in exactly this priority order: empty body gives
the fixed prompt reply with no classification; otherwise a body containing
"hello" gives the fixed greeting; otherwise a body containing "history"
gives the history lookup; otherwise the remote classifier is invoked and
the reply is the structured report combining the raw symptom text with
the classifier's text.  The keyword checks depend only on the lowercased
body. -/
theorem branch_priority (env : Env) (db : List Consultation)
    (phone msg : String) :
    (msg = "" → branchStep env db phone msg = (promptMsg, none, 0)) ∧
    (msg ≠ "" → hasSub (lowerStr msg).data "hello".data = true →
      branchStep env db phone msg = (greetMsg, none, 0)) ∧
    (msg ≠ "" → hasSub (lowerStr msg).data "hello".data = false →
      hasSub (lowerStr msg).data "history".data = true →
      branchStep env db phone msg =
        (if env.historyFail then histErrMsg
         else if (recent db phone).isEmpty then noHistMsg
         else renderHistory (recent db phone), none, 0)) ∧
    (msg ≠ "" → hasSub (lowerStr msg).data "hello".data = false →
      hasSub (lowerStr msg).data "history".data = false →
      branchStep env db phone msg =
        (reportMsg msg (diagnose env.remote).1.2,
         some (diagnose env.remote).1.1, 1)) ∧
    (∀ m₁ m₂ : String, lowerStr m₁ = lowerStr m₂ →
      hasSub (lowerStr m₁).data "hello".data
        = hasSub (lowerStr m₂).data "hello".data ∧
      hasSub (lowerStr m₁).data "history".data
        = hasSub (lowerStr m₂).data "history".data) := by
  refine ⟨?_, ?_, ?_, ?_, ?_⟩
  · intro h; simp [branchStep, h]
  · intro h hh; simp [branchStep, h, hh]
  · intro h hh hi; simp [branchStep, h, hh, hi]
  · intro h hh hi
    simp only [branchStep, h, hh, hi, if_false, if_neg, reduceIte]
    rfl
  · intro m₁ m₂ hm; rw [hm]; exact ⟨rfl, rfl⟩

/-- C2 witness: "HELLO there" takes the greeting branch. -/
theorem branch_priority_witness :
    branchStep ⟨RemoteOutcome.timeoutError, false, false, 0⟩ [] "p"
      "HELLO there" = (greetMsg, none, 0) :=
  (branch_priority ⟨RemoteOutcome.timeoutError, false, false, 0⟩ [] "p"
    "HELLO there").2.1 (by decide) (by decide)

end AiDoctor

namespace AiDoctor

/-- C3: on a structurally valid success response — non-empty candidates,
the first candidate carrying content with a non-empty parts list whose
first part has a text field — `diagnose` extracts that first text, wraps
it between the fixed leading and trailing disclaimers, and returns the
label "LLM Diagnosis" with the wrapped text (after its single call). -/
theorem diagnose_success_wraps (c : Candidate) (rest : List Candidate)
    (ct : Content) (p : Part) (ps : List Part) (t : String)
    (hc : c.content = some ct) (hp : ct.parts = p :: ps)
    (ht : p.text = some t) :
    diagnose (.success ⟨c :: rest⟩) =
      (("LLM Diagnosis", leadingDisclaimer ++ t ++ trailingDisclaimer), 1) := by
  simp [diagnose, post, hc, hp, ht, wrapDisclaimer]

/-- C3 witness: a concrete one-candidate response with text "ok". -/
theorem diagnose_success_wraps_witness :
    diagnose (.success ⟨[⟨some ⟨[⟨some "ok"⟩]⟩⟩]⟩) =
      (("LLM Diagnosis", leadingDisclaimer ++ "ok" ++ trailingDisclaimer), 1) :=
  diagnose_success_wraps ⟨some ⟨[⟨some "ok"⟩]⟩⟩ [] ⟨[⟨some "ok"⟩]⟩
    ⟨some "ok"⟩ [] "ok" rfl rfl rfl

/-- C4: the handler returns the branch-computed reply text exactly when
the store append succeeds; when the append fails it returns the fixed
"not saved" apology, overriding whatever the branch computed. -/
theorem save_failure_overrides (env : Env) (db : List Consultation)
    (req : Request) :
    (env.saveFail = true → (whatsapp_reply env db req).reply = notSavedMsg) ∧
    (env.saveFail = false → (whatsapp_reply env db req).reply =
      (branchStep env db (req.From.getD "")
        (strip (req.Body.getD ""))).1) := by
  constructor <;> intro h <;> simp [whatsapp_reply, save_to_db, h]

/-- C4 witness: with a failing insert, a greeting message still gets the
"not saved" apology as its reply. -/
theorem save_failure_overrides_witness :
    (whatsapp_reply ⟨RemoteOutcome.timeoutError, false, true, 0⟩ []
      ⟨some "p", some "hello"⟩).reply = notSavedMsg :=
  (save_failure_overrides ⟨RemoteOutcome.timeoutError, false, true, 0⟩ []
    ⟨some "p", some "hello"⟩).1 rfl

end AiDoctor

namespace AiDoctor

/-- C5: the history query returns at most 3 records, all matching the
sender's phone exactly, ordered most recent first by timestamp; on the
history branch an empty result yields the "no history" reply (not an
error), and a store failure during the query yields the fixed apology
reply instead of a crash. -/
theorem history_query_spec (env : Env) (db : List Consultation)
    (phone msg : String) :
    (recent db phone).length ≤ 3 ∧
    (∀ c ∈ recent db phone, c.phone = phone) ∧
    List.Sorted tsGe (recent db phone) ∧
    (msg ≠ "" → hasSub (lowerStr msg).data "hello".data = false →
      hasSub (lowerStr msg).data "history".data = true →
      (env.historyFail = true → (branchStep env db phone msg).1 = histErrMsg) ∧
      (env.historyFail = false → recent db phone = [] →
        (branchStep env db phone msg).1 = noHistMsg) ∧
      (env.historyFail = false → recent db phone ≠ [] →
        (branchStep env db phone msg).1 = renderHistory (recent db phone))) := by
  refine ⟨List.length_take_le 3 _, ?_, ?_, ?_⟩
  · intro c hc
    have h1 : c ∈ List.insertionSort tsGe
        (db.filter fun x => x.phone == phone) :=
      (List.take_sublist 3 _).subset hc
    have h2 : c ∈ db.filter fun x => x.phone == phone :=
      (List.perm_insertionSort tsGe _).subset h1
    exact eq_of_beq (List.mem_filter.mp h2).2
  · exact (List.sorted_insertionSort tsGe _).sublist (List.take_sublist 3 _)
  · intro h hh hi
    refine ⟨fun hf => ?_, fun hf he => ?_, fun hf he => ?_⟩
    · simp [branchStep, h, hh, hi, hf]
    · simp [branchStep, h, hh, hi, hf, he]
    · simp [branchStep, h, hh, hi, hf, List.isEmpty_iff, he]

/-- C5 witness: with a failing history query, the "history" command gets
the fixed database-apology reply. -/
theorem history_query_spec_witness :
    (branchStep ⟨RemoteOutcome.timeoutError, true, false, 0⟩ [] "p"
      "history").1 = histErrMsg :=
  ((history_query_spec ⟨RemoteOutcome.timeoutError, true, false, 0⟩ []
    "p" "history").2.2.2 (by decide) (by decide) (by decide)).1 rfl

/-- C6: the store append inserts exactly one row — appended with the next
sequential id and the store clock — and returns a boolean indicating
success; a persistence-layer failure is reported as a `false` return with
the table unchanged, never propagated. -/
theorem save_to_db_spec (fail : Bool) (db : List Consultation) (now : Nat)
    (c : SaveCall) :
    (save_to_db fail db now c).1 = !fail ∧
    (fail = false → (save_to_db fail db now c).2 =
      db ++ [⟨db.length + 1, c.phone, c.symptoms, c.diagnosis, c.response,
              now, c.patient_name⟩] ∧
      ((save_to_db fail db now c).2).length = db.length + 1) ∧
    (fail = true → (save_to_db fail db now c).1 = false ∧
      (save_to_db fail db now c).2 = db) := by
  cases fail <;> simp [save_to_db]

/-- C6 witness: a failing insert on the empty table reports failure and
leaves the table unchanged; a succeeding one appends a single row. -/
theorem save_to_db_spec_witness :
    ((save_to_db true [] 0 ⟨"p", "s", none, "r", "Unknown"⟩).1 = false ∧
      (save_to_db true [] 0 ⟨"p", "s", none, "r", "Unknown"⟩).2 = []) ∧
    ((save_to_db false [] 0 ⟨"p", "s", none, "r", "Unknown"⟩).2).length
      = 0 + 1 :=
  ⟨(save_to_db_spec true [] 0 ⟨"p", "s", none, "r", "Unknown"⟩).2.2 rfl,
   (((save_to_db_spec false [] 0 ⟨"p", "s", none, "r", "Unknown"⟩).2.1
     rfl).2.trans (by decide))⟩

end AiDoctor

namespace AiDoctor

/-- C7: every inbound message, whatever the branch, triggers exactly one
store append attempt, that attempt always carries "Unknown" as the
patient name, and when the append succeeds exactly one row is added. -/
theorem one_append_per_message (env : Env) (db : List Consultation)
    (req : Request) :
    (whatsapp_reply env db req).saves.length = 1 ∧
    (∀ s ∈ (whatsapp_reply env db req).saves, s.patient_name = "Unknown") ∧
    (env.saveFail = false →
      ((whatsapp_reply env db req).rows).length = db.length + 1) := by
  refine ⟨rfl, ?_, fun h => ?_⟩
  · intro s hs
    simp [whatsapp_reply] at hs
    rw [hs]
  · simp [whatsapp_reply, save_to_db, h]

/-- C7 witness: a greeting message still produces exactly one append
attempt with patient name "Unknown", and one new row. -/
theorem one_append_per_message_witness :
    (whatsapp_reply ⟨RemoteOutcome.timeoutError, false, false, 0⟩ []
        ⟨some "p", some "hello"⟩).saves.length = 1 ∧
    ((whatsapp_reply ⟨RemoteOutcome.timeoutError, false, false, 0⟩ []
        ⟨some "p", some "hello"⟩).rows).length = 0 + 1 :=
  ⟨(one_append_per_message ⟨RemoteOutcome.timeoutError, false, false, 0⟩ []
      ⟨some "p", some "hello"⟩).1,
   ((one_append_per_message ⟨RemoteOutcome.timeoutError, false, false, 0⟩ []
      ⟨some "p", some "hello"⟩).2.2 rfl).trans (by decide)⟩

/-- C8: the saved diagnosis field carries a classifier label exactly when
the classifier branch ran: the empty-body, greeting and history branches
record no diagnosis, the classifier branch records the label the
classifier returned, and the append call (and, on success, the persisted
row) carries exactly the branch's diagnosis. -/
theorem diagnosis_field_iff_classified (env : Env)
    (db : List Consultation) (phone msg : String) (req : Request) :
    ((msg = "" ∨ hasSub (lowerStr msg).data "hello".data = true ∨
        hasSub (lowerStr msg).data "history".data = true) →
      (branchStep env db phone msg).2.1 = none) ∧
    ((msg ≠ "" ∧ hasSub (lowerStr msg).data "hello".data = false ∧
        hasSub (lowerStr msg).data "history".data = false) →
      (branchStep env db phone msg).2.1 =
        some (diagnose env.remote).1.1) ∧
    ((whatsapp_reply env db req).saves =
      [⟨req.From.getD "", strip (req.Body.getD ""),
        (branchStep env db (req.From.getD "") (strip (req.Body.getD ""))).2.1,
        (branchStep env db (req.From.getD "") (strip (req.Body.getD ""))).1,
        "Unknown"⟩]) ∧
    (env.saveFail = false → (whatsapp_reply env db req).rows =
      db ++ [⟨db.length + 1, req.From.getD "", strip (req.Body.getD ""),
        (branchStep env db (req.From.getD "") (strip (req.Body.getD ""))).2.1,
        (branchStep env db (req.From.getD "") (strip (req.Body.getD ""))).1,
        env.now, "Unknown"⟩]) := by
  refine ⟨?_, ?_, rfl, fun h => ?_⟩
  · intro h
    by_cases he : msg = ""
    · simp [branchStep, he]
    · rcases h with h | h | h
      · exact absurd h he
      · simp [branchStep, he, h]
      · by_cases hh : hasSub (lowerStr msg).data "hello".data = true
        · simp [branchStep, he, hh]
        · simp [branchStep, he, Bool.not_eq_true _ ▸ hh, h]
  · rintro ⟨he, hh, hi⟩
    simp [branchStep, he, hh, hi]
  · simp [whatsapp_reply, save_to_db, h]

/-- C8 witness: a symptom message takes the classifier branch and records
its label; a greeting records no diagnosis. -/
theorem diagnosis_field_iff_classified_witness :
    (branchStep ⟨RemoteOutcome.timeoutError, false, false, 0⟩ [] "p"
      "fever").2.1 = some (diagnose RemoteOutcome.timeoutError).1.1 ∧
    (branchStep ⟨RemoteOutcome.timeoutError, false, false, 0⟩ [] "p"
      "hello").2.1 = none :=
  ⟨(diagnosis_field_iff_classified ⟨RemoteOutcome.timeoutError, false,
      false, 0⟩ [] "p" "fever" ⟨some "p", some "fever"⟩).2.1
      ⟨by decide, by decide, by decide⟩,
   (diagnosis_field_iff_classified ⟨RemoteOutcome.timeoutError, false,
      false, 0⟩ [] "p" "hello" ⟨some "p", some "hello"⟩).1
      (Or.inr (Or.inl (by decide)))⟩

/-- C9: database initialization unconditionally discards whatever the
database file held and leaves a fresh empty consultations table, so
immediately after startup every phone's history query is empty. -/
theorem init_db_destroys_data (fs : Option (List Consultation))
    (phone : String) :
    init_db fs = some [] ∧ recent ((init_db fs).getD []) phone = [] :=
  ⟨rfl, rfl⟩

/-- C10: the inbound body is stripped before branching and before
persistence: a request whose Body is absent or all-whitespace strips to
the empty string and takes the empty-body branch (with the prompt reply
when the append succeeds), and the symptoms value passed to the store is
always the stripped text. -/
theorem strip_before_branch_and_save (env : Env) (db : List Consultation)
    (req : Request) :
    ((∀ c ∈ (req.Body.getD "").data, isWs c = true) →
      strip (req.Body.getD "") = "" ∧
      branchStep env db (req.From.getD "") (strip (req.Body.getD "")) =
        (promptMsg, none, 0) ∧
      (env.saveFail = false →
        (whatsapp_reply env db req).reply = promptMsg)) ∧
    (∀ s ∈ (whatsapp_reply env db req).saves,
      s.symptoms = strip (req.Body.getD "")) := by
  constructor
  · intro hws
    have hs : strip (req.Body.getD "") = "" :=
      strip_of_all_ws (req.Body.getD "") hws
    refine ⟨hs, ?_, fun hf => ?_⟩
    · simp [branchStep, hs]
    · simp [whatsapp_reply, save_to_db, hf, branchStep, hs]
  · intro s hs
    simp [whatsapp_reply] at hs
    rw [hs]

/-- C10 witness: an all-whitespace body strips to empty, takes the
empty-body branch, and the saved symptoms value is the stripped text. -/
theorem strip_before_branch_and_save_witness :
    strip ((Request.mk (some "p") (some "   ")).Body.getD "") = "" ∧
    (whatsapp_reply ⟨RemoteOutcome.timeoutError, false, false, 0⟩ []
      ⟨some "p", some "   "⟩).reply = promptMsg :=
  ⟨((strip_before_branch_and_save ⟨RemoteOutcome.timeoutError, false,
      false, 0⟩ [] ⟨some "p", some "   "⟩).1 (by decide)).1,
   ((strip_before_branch_and_save ⟨RemoteOutcome.timeoutError, false,
      false, 0⟩ [] ⟨some "p", some "   "⟩).1 (by decide)).2.2 rfl⟩

end AiDoctor
